import Mathlib

/-!
Verification development for the PostgreSQL migration / database-manager
service (`src/server/routes.ts`).  The server code is shallowly embedded:
each helper of the source is translated into an executable Lean definition,
and the specification's claims are settled as theorems about those
definitions.  JavaScript strings are modelled as `String` / `List Char`,
JS `undefined`/missing values as `Option`, and JS objects as association
lists preserving key order.
-/

/-! ## Pattern matcher (`matchesPattern`, routes.ts lines 40-51)

The source converts a SQL-LIKE pattern to a JS regex:
  1. escape the characters `. + ^ $ { } ( ) | [ ] \` (note: `*` and `?`
     are NOT in the escaped class),
  2. replace `%` by `.*` and `_` by `.`,
  3. build `new RegExp("^" ++ r ++ "$", "i")` and `test` the table name;
     a construction error is caught and the matcher returns `true`.

We embed the translation literally, and give the produced regex fragment
its exact JS semantics on the alphabet it can contain: literal characters
(case-insensitively), escaped characters, `.` (any char except a line
terminator), the quantifiers `*` and `?` applied to the preceding atom
(with one optional laziness marker `?` after a quantifier, as JS allows),
and a parse failure for a dangling quantifier or trailing backslash
(JS raises SyntaxError there, which the source catches, failing open). -/

/-- Left brace character, written via its code point. -/
def lbraceChar : Char := Char.ofNat 123

/-- Right brace character, written via its code point. -/
def rbraceChar : Char := Char.ofNat 125

/-- The character class escaped by the source's first `replace`:
`/[.+^${}()|[\]\\]/g`.  `*` and `?` are absent, exactly as in the source. -/
def isEscClass (c : Char) : Bool :=
  c = '.' || c = '+' || c = '^' || c = '$' || c = lbraceChar || c = rbraceChar ||
  c = '(' || c = ')' || c = '|' || c = '[' || c = ']' || c = '\\'

/-- One step of `pattern.replace(/[.+^${}()|[\]\\]/g, "\\$&")`. -/
def escapeChar (c : Char) : List Char :=
  if isEscClass c then ['\\', c] else [c]

/-- `pattern.replace(/[.+^${}()|[\]\\]/g, "\\$&")` over the whole pattern. -/
def escapeRegex : List Char → List Char
  | [] => []
  | c :: rest => escapeChar c ++ escapeRegex rest

/-- `escaped.replace(/%/g, ".*").replace(/_/g, ".")`; both replacements are
per-character and their outputs contain no `%` or `_`, so the sequential
composition is this single pass. -/
def substWildcards : List Char → List Char
  | [] => []
  | c :: rest =>
    if c = '%' then '.' :: '*' :: substWildcards rest
    else if c = '_' then '.' :: substWildcards rest
    else c :: substWildcards rest

/-- The full pattern-to-regex-source translation of `matchesPattern`. -/
def likeToRegexChars (p : List Char) : List Char :=
  substWildcards (escapeRegex p)

/-- Atoms of the regex fragment reachable from the translation. -/
inductive Atom where
  | lit (c : Char)
  | dot
deriving DecidableEq, Repr

/-- Quantifier on an atom: exactly one, zero-or-more (`*`), zero-or-one (`?`). -/
inductive Quant where
  | one
  | star
  | opt
deriving DecidableEq, Repr

/-- Regex parser for the translated fragment, mirroring JS `new RegExp`
acceptance on this alphabet.  `acc` is the reversed token list built so
far; `canLazy` is true directly after a quantifier, where JS permits one
laziness marker `?`.  `none` models a SyntaxError (dangling quantifier,
trailing backslash). -/
def parseAux : List Char → List (Atom × Quant) → Bool → Option (List (Atom × Quant))
  | [], acc, _ => some acc.reverse
  | c :: rest, acc, canLazy =>
    if c = '\\' then
      match rest with
      | [] => none
      | d :: rest2 => parseAux rest2 ((Atom.lit d, Quant.one) :: acc) false
    else if c = '.' then parseAux rest ((Atom.dot, Quant.one) :: acc) false
    else if c = '*' then
      match acc with
      | (a, Quant.one) :: acc2 => parseAux rest ((a, Quant.star) :: acc2) true
      | _ => none
    else if c = '?' then
      match acc with
      | (a, Quant.one) :: acc2 => parseAux rest ((a, Quant.opt) :: acc2) true
      | _ => if canLazy then parseAux rest acc false else none
    else parseAux rest ((Atom.lit c, Quant.one) :: acc) false
termination_by l _ _ => l.length
decreasing_by all_goals simp_wf <;> omega

/-- Parse a translated regex fragment. -/
def parseRegex (l : List Char) : Option (List (Atom × Quant)) :=
  parseAux l [] false

/-- JS line terminators, which `.` does not match (no `s` flag is set). -/
def isLineTerm (c : Char) : Bool :=
  c = '\n' || c = '\r' || c = ' ' || c = ' '

/-- Atom matching under the `i` flag (case canonicalisation modelled by
`Char.toLower`; exact for ASCII table names). -/
def atomMatch : Atom → Char → Bool
  | Atom.lit a, c => a.toLower = c.toLower
  | Atom.dot, c => !isLineTerm c

/-- Anchored matching of the parsed token list against a string,
corresponding to `^...$` with neither `m` nor `s` flags. -/
def reMatch : List (Atom × Quant) → List Char → Bool
  | [], [] => true
  | [], _ :: _ => false
  | (_, Quant.one) :: _, [] => false
  | (a, Quant.one) :: ts, c :: s => atomMatch a c && reMatch ts s
  | (_, Quant.opt) :: ts, [] => reMatch ts []
  | (a, Quant.opt) :: ts, c :: s => reMatch ts (c :: s) || (atomMatch a c && reMatch ts s)
  | (_, Quant.star) :: ts, [] => reMatch ts []
  | (a, Quant.star) :: ts, c :: s =>
      reMatch ts (c :: s) || (atomMatch a c && reMatch ((a, Quant.star) :: ts) s)
termination_by ts s => (s.length, ts.length)

/-- `matchesPattern(tableName, pattern)` from routes.ts lines 40-51.
`none` is JS `undefined`; `!pattern` is also true for the empty string.
A parse failure models the caught SyntaxError: the matcher fails open. -/
def matchesPattern (tableName : String) (pattern : Option String) : Bool :=
  match pattern with
  | none => true
  | some p =>
    if p = "" then true
    else
      match parseRegex (likeToRegexChars p.toList) with
      | none => true
      | some ts => reMatch ts tableName.toList

/-! ### Spec-side SQL-LIKE matcher

Modelled from the spec's words (§4.1): `%` = any sequence including empty,
`_` = exactly one character, every other character matches only itself
literally, case-insensitively, anchored over the whole name.  Used as the
reference when settling the pattern-matcher claims. -/

/-- Spec-side SQL-LIKE matching: first argument the pattern, second the name. -/
def likeMatch : List Char → List Char → Bool
  | [], [] => true
  | [], _ :: _ => false
  | p :: ps, [] => if p = '%' then likeMatch ps [] else false
  | p :: ps, c :: s =>
    if p = '%' then likeMatch ps (c :: s) || likeMatch (p :: ps) s
    else if p = '_' then likeMatch ps s
    else (p.toLower = c.toLower) && likeMatch ps s
termination_by p s => (p.length, s.length)

/-! ### Script exporter's pattern translation (routes.ts line 457)

The generated Python script uses
`tablePattern ? tablePattern.replace(/%/g, ".*").replace(/_/g, ".") : ".*"`
— the wildcard substitutions WITHOUT the escaping step — and compiles
`re.compile("^" ++ TABLE_PATTERN ++ "$", re.IGNORECASE)`, filtering with
`regex.match(table)`.  We reuse the same regex fragment semantics; `none`
models the script aborting on an invalid pattern (Python `re.error`). -/

/-- The regex source text the exported script embeds as `TABLE_PATTERN`. -/
def scriptRegexSrc (pattern : Option String) : List Char :=
  match pattern with
  | none => ['.', '*']
  | some p => if p = "" then ['.', '*'] else substWildcards p.toList

/-- Whether the exported script's filter accepts a table name:
`some b` when the embedded regex compiles, `none` when compilation raises. -/
def scriptAccepts (pattern : Option String) (tableName : String) : Option Bool :=
  match parseRegex (scriptRegexSrc pattern) with
  | none => none
  | some ts => some (reMatch ts tableName.toList)

/-! ## Byte-size formatting (`formatBytes`, routes.ts lines 1276-1282)

The source computes `i = Math.floor(Math.log(bytes) / Math.log(1024))`,
then `Math.round((bytes / Math.pow(1024, i)) * 100) / 100 + " " + sizes[i]`
over IEEE doubles.  The model below replaces the float pipeline by integer
arithmetic: the floored logarithm becomes the integer base-1024 logarithm,
and `Math.round(x)` (round half toward positive infinity) of `a / p`
scaled by 100 becomes `(2 * (a * 100) + p) / (2 * p)` in integer division.

Where this substitution is exact, and where it is not:
  * `Math.pow(1024, i)` and `bytes / 1024^i` are exact in doubles (powers
    of two, `bytes < 2^53`), and `Math.round` of an exactly computed value
    is exact half-up rounding.  The product `(bytes / 1024^i) * 100` is
    the double computation's only rounding: it is exact precisely when its
    odd significand `bytes * 25` fits in 53 bits, i.e. `25 * bytes < 2^53`
    (about 360 TB).  Above that, the float product can land on a
    representable half-boundary and `Math.round` can answer one hundredth
    away from exact half-up rounding (e.g. at 720680393983918 bytes the
    program prints `655.46 TB` where exact arithmetic gives `655.45 TB`).
  * The float log ratio floors like the exact logarithm throughout that
    range — the misrounding window below each power `1024^k`, `k ≤ 4`, is
    narrower than one byte so contains no integer, and at the powers
    themselves the computed ratio is exactly `k` (the anchor
    `formatBytes 1024 = "1 KB"` exercises `k = 1`) — but within the last
    few integers below `1024^5` the window widens: at `1024^5 - 1` the
    computed ratio is already exactly `5.0`, so the real program indexes
    `sizes[5]`, which is JS `undefined` and string-concatenates as
    `"1 undefined"`, while the exact logarithm still answers 4 there.

Accordingly the C8 theorem is stated on `25 * bytes < 2^53`, where the
model and the program provably coincide and which excludes every
divergent input above, and the C8 counterexample is taken at `1024^5`
exactly, where model and program agree on the out-of-list unit (the
computed ratio at and just below `1024^5` is exactly `5.0`, and
`sizes[5]` is `undefined`). -/

/-- Fuelled integer base-1024 logarithm (structurally recursive so it
evaluates inside the kernel). -/
def intLogAux : Nat → Nat → Nat
  | 0, _ => 0
  | fuel + 1, n => if n < 1024 then 0 else intLogAux fuel (n / 1024) + 1

/-- `Math.floor(Math.log bytes / Math.log 1024)` for positive integers. -/
def intLog1024 (n : Nat) : Nat := intLogAux n n

/-- The unit list of the source. -/
def sizeUnits : List String := ["Bytes", "KB", "MB", "GB", "TB"]

/-- Render `v100 / 100` the way JS prints that number: no decimal point
for integers, one digit when the hundredths digit is 0, else two digits. -/
def renderHundredths (v100 : Nat) : String :=
  let q := v100 / 100
  let r := v100 % 100
  if r = 0 then toString q
  else if r % 10 = 0 then toString q ++ "." ++ toString (r / 10)
  else if r < 10 then toString q ++ ".0" ++ toString r
  else toString q ++ "." ++ toString r

/-- `formatBytes` from routes.ts lines 1276-1282. -/
def formatBytes (bytes : Nat) : String :=
  if bytes = 0 then "0 Bytes"
  else
    let i := intLog1024 bytes
    let p := 1024 ^ i
    let v100 := (2 * (bytes * 100) + p) / (2 * p)
    renderHundredths v100 ++ " " ++ sizeUnits.getD i "undefined"

/-! ## System tables and the discovery paths -/

/-- JS `String.prototype.startsWith`, expressed over the character
lists. -/
def strStartsWith (s pre : String) : Bool :=
  pre.toList.isPrefixOf s.toList

/-- `isSystemTable` from routes.ts lines 34-37. -/
def isSystemTable (tableName : String) : Bool :=
  strStartsWith tableName "pg_" || strStartsWith tableName "information_schema"

/-- First-occurrence substring replacement, as JS
`String.prototype.replace` with a string pattern. -/
def listReplaceFirst (s pat repl : List Char) : List Char :=
  match s with
  | [] => if pat = [] then repl else []
  | c :: rest =>
    if pat.isPrefixOf (c :: rest) then repl ++ (c :: rest).drop pat.length
    else c :: listReplaceFirst rest pat repl

/-- JS `s.replace(pat, repl)` with a plain-string pattern. -/
def jsReplaceOnce (s pat repl : String) : String :=
  String.mk (listReplaceFirst s.toList pat.toList repl.toList)

/-- A row of the `pg_stat_user_tables` query used by the analyze paths
(routes.ts lines 106-114 and 333-341): qualified name, total size, live
row estimate (already coerced to numbers as by `parseInt(...) || 0`). -/
structure StatRow where
  table_name : String
  size_bytes : Nat
  row_count : Nat
deriving DecidableEq, Repr

/-- The `{name, rows, size}` records returned by the analyze endpoints. -/
structure TableInfo where
  name : String
  rows : Nat
  size : String
deriving DecidableEq, Repr

/-- The analyze pipeline (routes.ts lines 116-123 / 343-350): map rows to
`TableInfo`, drop system tables, then apply the pattern filter. -/
def analyzeTables (rows : List StatRow) (pattern : Option String) : List TableInfo :=
  ((rows.map fun r =>
      TableInfo.mk (jsReplaceOnce r.table_name "public." "") r.row_count
        (formatBytes r.size_bytes)).filter
    fun t => !isSystemTable t.name).filter
    fun t => matchesPattern t.name pattern

/-- The migration executor's (and the source-backup route's) table-set
computation (routes.ts lines 209-217 and 613-619, which are identical):
filter out system tables, apply the pattern, then intersect with the
selected-tables allow-list when one is supplied and non-empty. -/
def tablesToMigrate (names : List String) (pattern : Option String)
    (selected : Option (List String)) : List String :=
  let base := (names.filter fun n => !isSystemTable n).filter
    fun n => matchesPattern n pattern
  match selected with
  | some sel => if sel.length > 0 then base.filter (fun n => sel.contains n) else base
  | none => base

/-! ## Dry-run plan builder (routes.ts lines 132-186 and 359-418)

Both dry-run handlers run one `information_schema.columns` query and group
the rows by table in a `Map` (insertion order preserved), skipping a row
when its table is a system table or fails the pattern; the plan then
renders, per table, an UNQUOTED `public.`-prefixed DROP and CREATE — note
the contrast with the executor's quoted rendering below. -/

/-- A row of the dry-run's `information_schema.columns` query
(no `character_maximum_length` is selected there). -/
structure ColRow where
  table_name : String
  column_name : String
  data_type : String
  is_nullable : String
  column_default : Option String
deriving DecidableEq, Repr

/-- `Map.get(tableName).push(col)` / `Map.set(tableName, [])`: append the
column to its table's group, keeping first-insertion key order. -/
def insertCol (acc : List (String × List ColRow)) (name : String) (c : ColRow) :
    List (String × List ColRow) :=
  match acc with
  | [] => [(name, [c])]
  | (k, cs) :: rest =>
    if k = name then (k, cs ++ [c]) :: rest else (k, cs) :: insertCol rest name c

/-- The grouping loop of the dry-run handlers (lines 154-164 / 385-395). -/
def groupCols (rows : List ColRow) (pattern : Option String) :
    List (String × List ColRow) :=
  rows.foldl
    (fun acc col =>
      if isSystemTable col.table_name || !matchesPattern col.table_name pattern then acc
      else insertCol acc col.table_name col)
    []

/-- One dry-run column clause (lines 168-169 / 400-401): unquoted name,
no max-length component; `col.column_default` is tested for JS truthiness
(absent or empty string renders nothing). -/
def dryColumnDef (col : ColRow) : String :=
  col.column_name ++ " " ++ col.data_type ++
    (if col.is_nullable = "NO" then " NOT NULL" else "") ++
    (match col.column_default with
     | some d => if d = "" then "" else " DEFAULT " ++ d
     | none => "")

/-- The three actions the dry-run emits per table (lines 174-178 / 406-410). -/
def dryRunActions (tableName : String) (cols : List ColRow) : List String :=
  ["DROP TABLE IF EXISTS public." ++ tableName ++ " CASCADE;",
   "CREATE TABLE public." ++ tableName ++ " (\n  " ++
     String.intercalate ",\n  " (cols.map dryColumnDef) ++ "\n);",
   "-- Copy data from source"]

/-- The whole dry-run plan: table name paired with its action list. -/
def dryRunPlan (rows : List ColRow) (pattern : Option String) :
    List (String × List String) :=
  (groupCols rows pattern).map fun g => (g.1, dryRunActions g.1 g.2)

/-! ## Migration executor DDL (routes.ts lines 224-248)

Per migrated table the executor fetches
`column_name, data_type, is_nullable, column_default,
character_maximum_length` in ordinal order and renders a quoted column
clause; the identical rendering also appears in the two backup routes
(lines 638-650, 727-739, 1184-1196). -/

/-- A row of the executor's `information_schema.columns` query, in
ordinal order.  `is_nullable` is the literal `"YES"`/`"NO"` string the
catalog returns; absent values are `none`. -/
structure ColumnDesc where
  column_name : String
  data_type : String
  is_nullable : String
  column_default : Option String
  character_maximum_length : Option Nat
deriving DecidableEq, Repr

/-- The executor's column clause (lines 232-244).  The max-length and
default components are appended under JS truthiness tests, so a
(catalog-impossible) zero length or empty default string renders
nothing, exactly as `if (col.character_maximum_length)` /
`if (col.column_default)` would. -/
def columnDef (col : ColumnDesc) : String :=
  let d0 := "\"" ++ col.column_name ++ "\" " ++ col.data_type
  let d1 :=
    match col.character_maximum_length with
    | some n => if n = 0 then d0 else d0 ++ "(" ++ toString n ++ ")"
    | none => d0
  let d2 := if col.is_nullable = "NO" then d1 ++ " NOT NULL" else d1
  match col.column_default with
  | some s => if s = "" then d2 else d2 ++ " DEFAULT " ++ s
  | none => d2

/-- The executor's DROP statement (line 247). -/
def migrateDropStmt (tableName : String) : String :=
  "DROP TABLE IF EXISTS \"" ++ tableName ++ "\" CASCADE"

/-- The executor's CREATE statement (lines 244, 248). -/
def migrateCreateStmt (tableName : String) (cols : List ColumnDesc) : String :=
  "CREATE TABLE \"" ++ tableName ++ "\" (" ++
    String.intercalate ", " (cols.map columnDef) ++ ")"

/-! ### Spec-side DDL renderers

Modelled from the spec's words (§4.3): `renderDrop` always emits
`DROP TABLE IF EXISTS "<name>" CASCADE`; `renderCreate` emits one clause
`"<name>" <declaredType>[(<maxLength>)][ NOT NULL][ DEFAULT <default>]`
per column in ordinal order, comma-joined inside a single
`CREATE TABLE "<name>" (...)`. -/

/-- Spec-side `renderDrop`. -/
def specRenderDrop (tableName : String) : String :=
  "DROP TABLE IF EXISTS \"" ++ tableName ++ "\" CASCADE"

/-- Spec-side column clause: each optional component is present exactly
when the corresponding descriptor field is present. -/
def specColumnClause (col : ColumnDesc) : String :=
  "\"" ++ col.column_name ++ "\" " ++ col.data_type ++
    (match col.character_maximum_length with
     | some n => "(" ++ toString n ++ ")"
     | none => "") ++
    (if col.is_nullable = "NO" then " NOT NULL" else "") ++
    (match col.column_default with
     | some d => " DEFAULT " ++ d
     | none => "")

/-- Spec-side `renderCreate`. -/
def specRenderCreate (tableName : String) (cols : List ColumnDesc) : String :=
  "CREATE TABLE \"" ++ tableName ++ "\" (" ++
    String.intercalate ", " (cols.map specColumnClause) ++ ")"

/-! ## Migration executor loop (routes.ts lines 189-277)

Each table is processed inside its own try/catch: DROP, CREATE, then —
only when `tableDataFlags && tableDataFlags[tableName] !== false` — a
`SELECT *` over the source followed by one INSERT per row, counting
`rowsCopied`.  A success pushes `{table, status: "success", rowsCopied}`,
an exception pushes `{table, status: "error", error: message}` and the
loop continues with the next table.  Database-side effects are abstracted
by a per-table behaviour oracle saying at which step, if any, the
database raises. -/

/-- A JS value as it flows through row objects and query parameters. -/
inductive JsValue where
  | null
  | str (s : String)
  | num (n : Int)
  | boolean (b : Bool)
deriving DecidableEq, Repr

/-- A row object: column keys paired with values, in the object's own
key order. -/
abbrev Row := List (String × JsValue)

/-- A source table: its name, its column metadata in ordinal order, and
its rows in `SELECT *` order. -/
structure SourceTable where
  name : String
  columns : List ColumnDesc
  rows : List Row
deriving DecidableEq, Repr

/-- What the destination/source connections do while one table is
processed: no exception, an exception at the DROP or the CREATE, or an
exception raised by the insert of row index `k` (no-op if row `k` is
never attempted). -/
inductive TableBeh where
  | ok
  | failDrop (msg : String)
  | failCreate (msg : String)
  | failCopy (k : Nat) (msg : String)
deriving DecidableEq, Repr

/-- Outcome status, `"success"` or `"error"`. -/
inductive Status where
  | success
  | error
deriving DecidableEq, Repr

/-- A per-table outcome record; `rowsCopied` is present exactly when the
source pushed it (success), `errMsg` exactly on the error push. -/
structure Outcome where
  table : String
  status : Status
  rowsCopied : Option Nat
  errMsg : Option String
deriving DecidableEq, Repr

/-- `tableDataFlags && tableDataFlags[tableName] !== false` (line 251):
when the flags object is absent (JS `undefined`) the conjunction is
falsy and no data is copied; when it is present — even empty — copying
is on unless the table's flag is literally `false`. -/
def shouldCopyData (flags : Option (List (String × Bool))) (tableName : String) : Bool :=
  match flags with
  | none => false
  | some fs => fs.lookup tableName ≠ some false

/-- Process one table (the try/catch body, lines 222-270): returns the
pushed outcome together with the rows actually inserted into the
destination. -/
def runTable (flags : Option (List (String × Bool))) (beh : TableBeh)
    (t : SourceTable) : Outcome × List Row :=
  match beh with
  | TableBeh.failDrop m => (Outcome.mk t.name Status.error none (some m), [])
  | TableBeh.failCreate m => (Outcome.mk t.name Status.error none (some m), [])
  | TableBeh.failCopy k m =>
    if shouldCopyData flags t.name then
      if k < t.rows.length then
        (Outcome.mk t.name Status.error none (some m), t.rows.take k)
      else
        (Outcome.mk t.name Status.success (some t.rows.length) none, t.rows)
    else (Outcome.mk t.name Status.success (some 0) none, [])
  | TableBeh.ok =>
    if shouldCopyData flags t.name then
      (Outcome.mk t.name Status.success (some t.rows.length) none, t.rows)
    else (Outcome.mk t.name Status.success (some 0) none, [])

/-- The executor's table-set computation applied directly to the source
tables (the source first lists the names, lines 203-217; since the names
are exactly those of the source's tables, filtering the tables by the
same name predicates is the same computation). -/
def migrateSet (src : List SourceTable) (pattern : Option String)
    (selected : Option (List String)) : List SourceTable :=
  let base := (src.filter fun t => !isSystemTable t.name).filter
    fun t => matchesPattern t.name pattern
  match selected with
  | some sel => if sel.length > 0 then base.filter (fun t => sel.contains t.name) else base
  | none => base

/-- The whole `quick-migrate` run: the outcome list the handler returns. -/
def quickMigrate (src : List SourceTable) (pattern : Option String)
    (selected : Option (List String)) (flags : Option (List (String × Bool)))
    (beh : String → TableBeh) : List Outcome :=
  (migrateSet src pattern selected).map fun t => (runTable flags (beh t.name) t).1

/-! ## Database-manager endpoints (routes.ts lines 893-1132)

`POST /api/db/data` and `POST /api/db/row` validate the requested table
name against `/^[a-zA-Z_][a-zA-Z0-9_]*$/` and answer a 400 validation
error before building any SQL when it fails.  Each handler is embedded as
a function from the (zod-validated) request plus the catalog's answer for
the table's column names, to either an error or the SQL it would issue.
The environment-configuration check that precedes the validation involves
no SQL and is elided. -/

/-- The identifier test `/^[a-zA-Z_][a-zA-Z0-9_]*$/` (lines 910, 935,
951, 1016, 1031). -/
def isValidIdent (s : String) : Bool :=
  match s.toList with
  | [] => false
  | c :: cs => (c.isAlpha || c = '_') && cs.all fun d => d.isAlphanum || d = '_'

/-- The 400/404 answers the two handlers can give before reaching SQL. -/
inductive HandlerError where
  | invalidTableName
  | tableNotFound
  | dataRequired
  | whereRequired
  | noValidColumns
  | noValidDataColumns
  | noValidWhereColumns
deriving DecidableEq, Repr

/-- The SQL the `db/data` handler would issue: the two query strings and
their parameter lists. -/
structure DataPlan where
  countQuery : String
  countParams : List JsValue
  dataQuery : String
  dataParams : List JsValue
deriving DecidableEq, Repr

/-- The `db/data` handler (lines 893-996), from the name check to the
built queries.  `columnNames` is the catalog's answer for the table. -/
def dbDataHandler (tableName : String) (page pageSize : Nat)
    (orderBy : Option String) (orderDir : String) (search : Option String)
    (columnNames : List String) : Except HandlerError DataPlan :=
  if !isValidIdent tableName then Except.error HandlerError.invalidTableName
  else if columnNames.isEmpty then Except.error HandlerError.tableNotFound
  else
    let offset := (page - 1) * pageSize
    let validOrderBy : Option String :=
      match orderBy with
      | some ob =>
        if columnNames.contains ob && isValidIdent ob then some ob else none
      | none => none
    let searchParam : Option String :=
      match search with
      | some s => if s.trim = "" then none else some ("%" ++ s.trim ++ "%")
      | none => none
    let dirSql := if orderDir = "desc" then "DESC" else "ASC"
    match searchParam with
    | some sp =>
      let conds := String.intercalate " OR "
        (((columnNames.filter isValidIdent).map
          fun col => "CAST(\"" ++ col ++ "\" AS TEXT) ILIKE $1"))
      let countQuery := "SELECT COUNT(*) as total FROM \"" ++ tableName ++
        "\" WHERE " ++ conds
      let dataQuery :=
        match validOrderBy with
        | some ob =>
          "SELECT * FROM \"" ++ tableName ++ "\" WHERE " ++ conds ++
            " ORDER BY \"" ++ ob ++ "\" " ++ dirSql ++ " LIMIT $2 OFFSET $3"
        | none =>
          "SELECT * FROM \"" ++ tableName ++ "\" WHERE " ++ conds ++
            " ORDER BY 1 LIMIT $2 OFFSET $3"
      Except.ok (DataPlan.mk countQuery [JsValue.str sp] dataQuery
        [JsValue.str sp, JsValue.num pageSize, JsValue.num offset])
    | none =>
      let countQuery := "SELECT COUNT(*) as total FROM \"" ++ tableName ++ "\""
      let dataQuery :=
        match validOrderBy with
        | some ob =>
          "SELECT * FROM \"" ++ tableName ++ "\" ORDER BY \"" ++ ob ++ "\" " ++
            dirSql ++ " LIMIT $1 OFFSET $2"
        | none => "SELECT * FROM \"" ++ tableName ++ "\" ORDER BY 1 LIMIT $1 OFFSET $2"
      Except.ok (DataPlan.mk countQuery [] dataQuery
        [JsValue.num pageSize, JsValue.num offset])

/-- The row-mutation operations of `db/row`. -/
inductive MutationOp where
  | insert
  | update
  | delete
deriving DecidableEq, Repr

/-- The SQL a successful `db/row` request would issue. -/
structure MutationPlan where
  query : String
  params : List JsValue
deriving DecidableEq, Repr

/-- The SET-clause loop of the update branch (lines 1077-1081): every
data entry becomes `"k" = $n` and pushes its value. -/
def buildSetClauses (entries : List (String × JsValue)) (startIdx : Nat) :
    List String × List JsValue :=
  match entries with
  | [] => ([], [])
  | (k, v) :: rest =>
    let r := buildSetClauses rest (startIdx + 1)
    (("\"" ++ k ++ "\" = $" ++ toString startIdx) :: r.1, v :: r.2)

/-- The WHERE-clause loops of the update and delete branches (lines
1083-1091 and 1112-1120): a `null` value renders `"k" IS NULL` and pushes
no parameter; any other value renders `"k" = $n` and pushes it,
incrementing the parameter index. -/
def buildWhereClauses (entries : List (String × JsValue)) (startIdx : Nat) :
    List String × List JsValue :=
  match entries with
  | [] => ([], [])
  | (k, v) :: rest =>
    if v = JsValue.null then
      let r := buildWhereClauses rest startIdx
      (("\"" ++ k ++ "\" IS NULL") :: r.1, r.2)
    else
      let r := buildWhereClauses rest (startIdx + 1)
      (("\"" ++ k ++ "\" = $" ++ toString startIdx) :: r.1, v :: r.2)

/-- The `db/row` handler (lines 999-1128) from the table-name check to
the built statement.  `validColumns` is the catalog's column-name answer;
`isValidColumn` (line 1031) requires membership there plus the identifier
grammar.  `data`/`whereM` are the optional request mappings in key order. -/
def rowHandler (tableName : String) (op : MutationOp)
    (data whereM : Option (List (String × JsValue)))
    (validColumns : List String) : Except HandlerError MutationPlan :=
  if !isValidIdent tableName then Except.error HandlerError.invalidTableName
  else
    let isValidColumn := fun (c : String) => validColumns.contains c && isValidIdent c
    match op with
    | MutationOp.insert =>
      match data with
      | none => Except.error HandlerError.dataRequired
      | some d =>
        if d.isEmpty then Except.error HandlerError.dataRequired
        else
          let validEntries := d.filter fun e => isValidColumn e.1
          if validEntries.isEmpty then Except.error HandlerError.noValidColumns
          else
            let columns := validEntries.map Prod.fst
            let values := validEntries.map Prod.snd
            let placeholders := String.intercalate ", "
              ((List.range columns.length).map fun i => "$" ++ toString (i + 1))
            let colNames := String.intercalate ", "
              (columns.map fun c => "\"" ++ c ++ "\"")
            Except.ok (MutationPlan.mk
              ("INSERT INTO \"" ++ tableName ++ "\" (" ++ colNames ++
                ") VALUES (" ++ placeholders ++ ") RETURNING *") values)
    | MutationOp.update =>
      match data with
      | none => Except.error HandlerError.dataRequired
      | some d =>
        if d.isEmpty then Except.error HandlerError.dataRequired
        else
          match whereM with
          | none => Except.error HandlerError.whereRequired
          | some w =>
            if w.isEmpty then Except.error HandlerError.whereRequired
            else
              let validDataEntries := d.filter fun e => isValidColumn e.1
              let validWhereEntries := w.filter fun e => isValidColumn e.1
              if validDataEntries.isEmpty then
                Except.error HandlerError.noValidDataColumns
              else if validWhereEntries.isEmpty then
                Except.error HandlerError.noValidWhereColumns
              else
                let sets := buildSetClauses validDataEntries 1
                let wheres := buildWhereClauses validWhereEntries
                  (1 + validDataEntries.length)
                Except.ok (MutationPlan.mk
                  ("UPDATE \"" ++ tableName ++ "\" SET " ++
                    String.intercalate ", " sets.1 ++ " WHERE " ++
                    String.intercalate " AND " wheres.1 ++ " RETURNING *")
                  (sets.2 ++ wheres.2))
    | MutationOp.delete =>
      match whereM with
      | none => Except.error HandlerError.whereRequired
      | some w =>
        if w.isEmpty then Except.error HandlerError.whereRequired
        else
          let validWhereEntries := w.filter fun e => isValidColumn e.1
          if validWhereEntries.isEmpty then
            Except.error HandlerError.noValidWhereColumns
          else
            let wheres := buildWhereClauses validWhereEntries 1
            Except.ok (MutationPlan.mk
              ("DELETE FROM \"" ++ tableName ++ "\" WHERE " ++
                String.intercalate " AND " wheres.1) wheres.2)

/-! ## Lemmas about the pattern translation and matching -/

/-- Token list a pattern free of `*` and `?` translates to: `%` becomes a
starred dot, `_` a dot, anything else (escaped or not) itself literally. -/
def likeTokens : List Char → List (Atom × Quant)
  | [] => []
  | c :: rest =>
    if c = '%' then (Atom.dot, Quant.star) :: likeTokens rest
    else if c = '_' then (Atom.dot, Quant.one) :: likeTokens rest
    else (Atom.lit c, Quant.one) :: likeTokens rest

theorem parseAux_nil (acc : List (Atom × Quant)) (lz : Bool) :
    parseAux [] acc lz = some acc.reverse := by
  rw [parseAux.eq_def]

theorem parseAux_backslash (d : Char) (l : List Char) (acc : List (Atom × Quant)) (lz : Bool) :
    parseAux ('\\' :: d :: l) acc lz = parseAux l ((Atom.lit d, Quant.one) :: acc) false := by
  rw [parseAux.eq_def]
  simp

theorem parseAux_dot (l : List Char) (acc : List (Atom × Quant)) (lz : Bool) :
    parseAux ('.' :: l) acc lz = parseAux l ((Atom.dot, Quant.one) :: acc) false := by
  rw [parseAux.eq_def]
  simp

theorem parseAux_star_one (l : List Char) (a : Atom) (acc : List (Atom × Quant)) (lz : Bool) :
    parseAux ('*' :: l) ((a, Quant.one) :: acc) lz = parseAux l ((a, Quant.star) :: acc) true := by
  rw [parseAux.eq_def]
  simp

theorem parseAux_other (c : Char) (l : List Char) (acc : List (Atom × Quant)) (lz : Bool)
    (h1 : c ≠ '\\') (h2 : c ≠ '.') (h3 : c ≠ '*') (h4 : c ≠ '?') :
    parseAux (c :: l) acc lz = parseAux l ((Atom.lit c, Quant.one) :: acc) false := by
  rw [parseAux.eq_def]
  simp [h1, h2, h3, h4]

theorem substWildcards_append (xs ys : List Char) :
    substWildcards (xs ++ ys) = substWildcards xs ++ substWildcards ys := by
  induction xs with
  | nil => simp [substWildcards]
  | cons c rest ih =>
    by_cases h1 : c = '%'
    · simp [substWildcards, h1, ih]
    · by_cases h2 : c = '_' <;> simp [substWildcards, h1, h2, ih]

theorem substWildcards_single (c : Char) (h1 : c ≠ '%') (h2 : c ≠ '_') :
    substWildcards [c] = [c] := by
  simp [substWildcards, h1, h2]

/-- On a pattern containing no `*` and no `?`, the source's translation
parses successfully, to exactly the wildcard tokens. -/
theorem parse_likeToRegex (p : List Char) (hs : '*' ∉ p) (hq : '?' ∉ p) :
    ∀ (acc : List (Atom × Quant)) (lz : Bool),
      parseAux (likeToRegexChars p) acc lz = some (acc.reverse ++ likeTokens p) := by
  induction p with
  | nil =>
    intro acc lz
    simp [likeToRegexChars, escapeRegex, substWildcards, parseAux_nil, likeTokens]
  | cons c p ih =>
    intro acc lz
    have hs' : '*' ∉ p := fun h => hs (List.mem_cons_of_mem _ h)
    have hq' : '?' ∉ p := fun h => hq (List.mem_cons_of_mem _ h)
    have hcs : c ≠ '*' := fun h => hs (h ▸ List.mem_cons_self _ _)
    have hcq : c ≠ '?' := fun h => hq (h ▸ List.mem_cons_self _ _)
    have hstep : likeToRegexChars (c :: p) =
        substWildcards (escapeChar c) ++ likeToRegexChars p := by
      simp [likeToRegexChars, escapeRegex, substWildcards_append]
    by_cases hc1 : c = '%'
    · subst hc1
      have hw : substWildcards (escapeChar '%') = ['.', '*'] := by decide
      rw [hstep, hw]
      simp only [List.cons_append, List.nil_append]
      rw [parseAux_dot, parseAux_star_one, ih hs' hq']
      simp [likeTokens]
    · by_cases hc2 : c = '_'
      · subst hc2
        have hw : substWildcards (escapeChar '_') = ['.'] := by decide
        rw [hstep, hw]
        simp only [List.cons_append, List.nil_append]
        rw [parseAux_dot, ih hs' hq']
        simp [likeTokens, hc1]
      · by_cases hc3 : isEscClass c = true
        · have hb1 : ('\\' : Char) ≠ '%' := by decide
          have hb2 : ('\\' : Char) ≠ '_' := by decide
          have hw : substWildcards (escapeChar c) = ['\\', c] := by
            show substWildcards (if isEscClass c then ['\\', c] else [c]) = ['\\', c]
            rw [if_pos hc3]
            show substWildcards ('\\' :: [c]) = ['\\', c]
            simp [substWildcards, hb1, hb2, hc1, hc2]
          rw [hstep, hw]
          simp only [List.cons_append, List.nil_append]
          rw [parseAux_backslash, ih hs' hq']
          simp [likeTokens, hc1, hc2]
        · have hcb : c ≠ '\\' := by
            intro h; rw [h] at hc3; exact hc3 (by decide)
          have hcd : c ≠ '.' := by
            intro h; rw [h] at hc3; exact hc3 (by decide)
          have hw : substWildcards (escapeChar c) = [c] := by
            show substWildcards (if isEscClass c then ['\\', c] else [c]) = [c]
            rw [if_neg (by simpa using hc3)]
            exact substWildcards_single c hc1 hc2
          rw [hstep, hw]
          simp only [List.cons_append, List.nil_append]
          rw [parseAux_other c _ _ _ hcb hcd hcs hcq, ih hs' hq']
          simp [likeTokens, hc1, hc2]

theorem reMatch_nil_nil : reMatch [] [] = true := by rw [reMatch.eq_def]

theorem reMatch_nil_cons (c : Char) (s : List Char) : reMatch [] (c :: s) = false := by
  rw [reMatch.eq_def]

theorem reMatch_one_nil (a : Atom) (ts : List (Atom × Quant)) :
    reMatch ((a, Quant.one) :: ts) [] = false := by
  rw [reMatch.eq_def]

theorem reMatch_one_cons (a : Atom) (ts : List (Atom × Quant)) (c : Char) (s : List Char) :
    reMatch ((a, Quant.one) :: ts) (c :: s) = (atomMatch a c && reMatch ts s) := by
  rw [reMatch.eq_def]

theorem reMatch_star_nil (a : Atom) (ts : List (Atom × Quant)) :
    reMatch ((a, Quant.star) :: ts) [] = reMatch ts [] := by
  rw [reMatch.eq_def]

theorem reMatch_star_cons (a : Atom) (ts : List (Atom × Quant)) (c : Char) (s : List Char) :
    reMatch ((a, Quant.star) :: ts) (c :: s) =
      (reMatch ts (c :: s) || (atomMatch a c && reMatch ((a, Quant.star) :: ts) s)) := by
  rw [reMatch.eq_def]

theorem likeMatch_nil_nil : likeMatch [] [] = true := by rw [likeMatch.eq_def]

theorem likeMatch_nil_cons (c : Char) (s : List Char) : likeMatch [] (c :: s) = false := by
  rw [likeMatch.eq_def]

theorem likeMatch_cons_nil (p : Char) (ps : List Char) :
    likeMatch (p :: ps) [] = if p = '%' then likeMatch ps [] else false := by
  rw [likeMatch.eq_def]

theorem likeMatch_cons_cons (p : Char) (ps : List Char) (c : Char) (s : List Char) :
    likeMatch (p :: ps) (c :: s) =
      if p = '%' then likeMatch ps (c :: s) || likeMatch (p :: ps) s
      else if p = '_' then likeMatch ps s
      else (p.toLower = c.toLower) && likeMatch ps s := by
  rw [likeMatch.eq_def]

/-- On names free of line terminators, the wildcard tokens match exactly
as the spec-side SQL-LIKE matcher does. -/
theorem reMatch_likeTokens (p s : List Char) (h : ∀ c ∈ s, isLineTerm c = false) :
    reMatch (likeTokens p) s = likeMatch p s := by
  revert h
  induction p, s using likeMatch.induct with
  | case1 =>
    intro h
    simp [likeTokens, reMatch_nil_nil, likeMatch_nil_nil]
  | case2 c s =>
    intro h
    simp [likeTokens, reMatch_nil_cons, likeMatch_nil_cons]
  | case3 ps ih =>
    intro h
    rw [likeTokens, if_pos rfl, reMatch_star_nil, likeMatch_cons_nil, if_pos rfl]
    exact ih h
  | case4 p ps hp =>
    intro h
    rw [likeTokens, if_neg hp, likeMatch_cons_nil, if_neg hp]
    by_cases hu : p = '_'
    · rw [if_pos hu, reMatch_one_nil]
    · rw [if_neg hu, reMatch_one_nil]
  | case5 ps c s ih1 ih2 =>
    intro h
    have hc : isLineTerm c = false := h c (List.mem_cons_self _ _)
    have h2 : ∀ d ∈ s, isLineTerm d = false := fun d hd => h d (List.mem_cons_of_mem _ hd)
    rw [likeTokens, if_pos rfl, reMatch_star_cons, likeMatch_cons_cons, if_pos rfl]
    rw [show atomMatch Atom.dot c = true by simp [atomMatch, hc]]
    rw [ih1 h]
    rw [show reMatch ((Atom.dot, Quant.star) :: likeTokens ps) s =
          reMatch (likeTokens ('%' :: ps)) s by rw [likeTokens, if_pos rfl]]
    rw [ih2 h2]
    simp
  | case6 ps c s hp ih =>
    intro h
    have hc : isLineTerm c = false := h c (List.mem_cons_self _ _)
    have h2 : ∀ d ∈ s, isLineTerm d = false := fun d hd => h d (List.mem_cons_of_mem _ hd)
    rw [likeTokens, if_neg hp, if_pos rfl, reMatch_one_cons, likeMatch_cons_cons,
      if_neg hp, if_pos rfl]
    rw [show atomMatch Atom.dot c = true by simp [atomMatch, hc]]
    rw [ih h2]
    simp
  | case7 p ps c s hp hu ih =>
    intro h
    have h2 : ∀ d ∈ s, isLineTerm d = false := fun d hd => h d (List.mem_cons_of_mem _ hd)
    rw [likeTokens, if_neg hp, if_neg hu, reMatch_one_cons, likeMatch_cons_cons,
      if_neg hp, if_neg hu, ih h2]
    rfl

/-! ## Claim C3 — `matchesPattern` semantics -/

/-- Claim C3, counterexample: the claim says every non-wildcard character,
including the regex metacharacter `*`, matches only itself literally; but
the source's escape class omits `*`, so the pattern `a*` (which under
literal semantics matches only the two-character name `a*`) accepts the
name `aa`. -/
theorem C3_counterexample :
    matchesPattern "aa" (some "a*") = true ∧ likeMatch "a*".toList "aa".toList = false := by
  constructor
  · simp [matchesPattern, parseRegex, likeToRegexChars, escapeRegex, escapeChar, isEscClass,
      substWildcards, parseAux.eq_def, reMatch.eq_def, atomMatch, isLineTerm,
      lbraceChar, rbraceChar]
  · simp +decide [likeMatch_cons_cons, likeMatch_nil_nil, likeMatch_nil_cons, likeMatch_cons_nil]

/-- Claim C3 (amended): `matchesPattern` returns true when the pattern is
undefined or empty; on any pattern free of `*` and `?`, and any name free
of line terminators, it is exactly anchored case-insensitive SQL-LIKE
matching (`%` any sequence, `_` exactly one character, every other
character — escaped or not — only itself literally); and whenever regex
construction fails the matcher returns true (fails open). -/
theorem C3_theorem :
    (∀ n : String, matchesPattern n none = true) ∧
    (∀ n : String, matchesPattern n (some "") = true) ∧
    (∀ n p : String, p ≠ "" → '*' ∉ p.toList → '?' ∉ p.toList →
      (∀ c ∈ n.toList, isLineTerm c = false) →
      matchesPattern n (some p) = likeMatch p.toList n.toList) ∧
    (∀ n p : String, p ≠ "" → parseRegex (likeToRegexChars p.toList) = none →
      matchesPattern n (some p) = true) := by
  refine ⟨fun n => rfl, fun n => rfl, ?_, ?_⟩
  · intro n p hne hs hq hlt
    have hp : parseRegex (likeToRegexChars p.toList) = some (likeTokens p.toList) := by
      rw [parseRegex, parse_likeToRegex p.toList hs hq [] false]
      simp
    rw [matchesPattern, if_neg hne, hp]
    exact reMatch_likeTokens p.toList n.toList hlt
  · intro n p hne hfail
    rw [matchesPattern, if_neg hne, hfail]

/-- Claim C3, witness: the amended equivalence instantiated at the spec's
own example, name `tb_users` against pattern `tb_%`. -/
theorem C3_witness :
    (("tb_%" : String) ≠ "" ∧
      matchesPattern "tb_users" (some "tb_%") = likeMatch "tb_%".toList "tb_users".toList) ∧
    matchesPattern "anything" none = true :=
  ⟨⟨by decide, C3_theorem.2.2.1 "tb_users" "tb_%" (by decide) (by decide) (by decide) (by decide)⟩,
   C3_theorem.1 "anything"⟩

/-! ## Claim C2 — exported script vs live matcher -/

/-- Claim C2: the exported script's translation omits the escaping step
the live matcher performs, so the two disagree: for pattern `a.c` the
live `matchesPattern` rejects the name `axc` (the dot is escaped), while
the exported program's regex `^a.c$` accepts it. -/
theorem C2_theorem :
    matchesPattern "axc" (some "a.c") = false ∧
    scriptAccepts (some "a.c") "axc" = some true := by
  constructor
  · simp [matchesPattern, parseRegex, likeToRegexChars, escapeRegex, escapeChar, isEscClass,
      substWildcards, parseAux.eq_def, reMatch.eq_def, atomMatch, isLineTerm,
      lbraceChar, rbraceChar]
  · simp [scriptAccepts, scriptRegexSrc, parseRegex, substWildcards,
      parseAux.eq_def, reMatch.eq_def, atomMatch, isLineTerm]

/-! ## Claim C1 — data-copy default in the migration executor -/

/-- The `orders` fixture of the spec's concrete scenario (§8.7): columns
`(id int NOT NULL, total numeric DEFAULT 0, created_at timestamp)` and
two rows. -/
def ordersColumns : List ColumnDesc :=
  [ColumnDesc.mk "id" "integer" "NO" none none,
   ColumnDesc.mk "total" "numeric" "YES" (some "0") none,
   ColumnDesc.mk "created_at" "timestamp without time zone" "YES" none none]

/-- First source row of the fixture. -/
def ordersRow1 : Row :=
  [("id", JsValue.num 1), ("total", JsValue.num 10), ("created_at", JsValue.str "2024-01-01")]

/-- Second source row of the fixture. -/
def ordersRow2 : Row :=
  [("id", JsValue.num 2), ("total", JsValue.num 20), ("created_at", JsValue.str "2024-01-02")]

/-- The fixture table. -/
def ordersTable : SourceTable :=
  SourceTable.mk "orders" ordersColumns [ordersRow1, ordersRow2]

theorem matches_orders : matchesPattern "orders" (some "ord%") = true := by
  simp [matchesPattern, parseRegex, likeToRegexChars, escapeRegex, escapeChar, isEscClass,
    substWildcards, parseAux.eq_def, reMatch.eq_def, atomMatch, isLineTerm,
    lbraceChar, rbraceChar]

/-- Claim C1: evaluation of the executor at the claim's own scenario.
With `tableDataFlags` absent (the body the UI actually sends), the
condition `tableDataFlags && tableDataFlags[t] !== false` is falsy, the
copy step is skipped, and the outcome is `rowsCopied = 0` — not the 2 the
claim requires.  Supplying any flags object (even one not mentioning
`orders`) restores the copy, confirming the divergence is exactly the
absent-flags case. -/
theorem C1_theorem :
    quickMigrate [ordersTable] (some "ord%") none none (fun _ => TableBeh.ok) =
      [Outcome.mk "orders" Status.success (some 0) none] ∧
    quickMigrate [ordersTable] (some "ord%") none (some []) (fun _ => TableBeh.ok) =
      [Outcome.mk "orders" Status.success (some 2) none] ∧
    quickMigrate [ordersTable] (some "ord%") none (some [("other_table", true)])
        (fun _ => TableBeh.ok) =
      [Outcome.mk "orders" Status.success (some 2) none] := by
  have hname : ordersTable.name = "orders" := rfl
  have hm : migrateSet [ordersTable] (some "ord%") none = [ordersTable] := by
    have hmp : matchesPattern ordersTable.name (some "ord%") = true := matches_orders
    simp [migrateSet, hmp, show isSystemTable ordersTable.name = false by decide]
  refine ⟨?_, ?_, ?_⟩ <;>
  · simp only [quickMigrate, hm]
    simp +decide [runTable, shouldCopyData, ordersTable, ordersRow1, ordersRow2]

/-! ## Claim C4 — DDL rendering -/

/-- Strings with equal character lists are equal. -/
theorem string_eq_of_data_eq (s t : String) (h : s.data = t.data) : s = t := by
  cases s; cases t; exact congrArg String.mk h

/-- The executor's column clause coincides with the spec's
`"<name>" <declaredType>[(<maxLength>)][ NOT NULL][ DEFAULT <default>]`
whenever the metadata is non-degenerate (the catalog never reports a
zero max length or an empty default expression; on those JS-falsy values
the code would silently drop the component). -/
theorem columnDef_eq_spec (c : ColumnDesc)
    (h1 : c.character_maximum_length ≠ some 0) (h2 : c.column_default ≠ some "") :
    columnDef c = specColumnClause c := by
  cases hml : c.character_maximum_length with
  | none =>
    cases hd : c.column_default with
    | none =>
      by_cases hnul : c.is_nullable = "NO" <;>
      · apply string_eq_of_data_eq
        simp [columnDef, specColumnClause, hml, hd, hnul, String.data_append]
    | some d =>
      have hdne : d ≠ "" := by intro he; exact h2 (by rw [hd, he])
      by_cases hnul : c.is_nullable = "NO" <;>
      · apply string_eq_of_data_eq
        simp [columnDef, specColumnClause, hml, hd, hdne, hnul, String.data_append]
  | some n =>
    have hnne : n ≠ 0 := by intro he; exact h1 (by rw [hml, he])
    cases hd : c.column_default with
    | none =>
      by_cases hnul : c.is_nullable = "NO" <;>
      · apply string_eq_of_data_eq
        simp [columnDef, specColumnClause, hml, hd, hnne, hnul, String.data_append]
    | some d =>
      have hdne : d ≠ "" := by intro he; exact h2 (by rw [hd, he])
      by_cases hnul : c.is_nullable = "NO" <;>
      · apply string_eq_of_data_eq
        simp [columnDef, specColumnClause, hml, hd, hnne, hdne, hnul, String.data_append]

/-- Claim C4, counterexample: the dry-run plan builder does NOT render the
claimed quoted DDL.  Its DROP action prefixes the bare name with
`public.` and carries no double quotes, and its CREATE clause quotes
nothing (and would also omit any max length, which its metadata query
does not even select). -/
theorem C4_counterexample :
    dryRunActions "orders" [ColRow.mk "orders" "id" "integer" "NO" none] =
      ["DROP TABLE IF EXISTS public.orders CASCADE;",
       "CREATE TABLE public.orders (\n  id integer NOT NULL\n);",
       "-- Copy data from source"] ∧
    "DROP TABLE IF EXISTS public.orders CASCADE;" ≠ specRenderDrop "orders" ++ ";" ∧
    "CREATE TABLE public.orders (\n  id integer NOT NULL\n);" ≠
      "CREATE TABLE " ++ "\"" ++ "orders" ++ "\"" ++ " (" ++ specColumnClause
        (ColumnDesc.mk "id" "integer" "NO" none none) ++ ")" := by
  refine ⟨by decide, by decide, by decide⟩

/-- Claim C4 (amended): the migration executor (whose rendering the backup
generators share verbatim) renders DROP and CREATE exactly as the claim
states — double-quoted table name, one clause per column in ordinal order
with optional `(<maxLength>)`, ` NOT NULL` and ` DEFAULT <expr>` parts,
comma-joined — for every table name and every column list whose max
lengths are not 0 and whose defaults are not the empty string; the
dry-run plan builder instead renders unquoted `public.<name>`-prefixed
statements without max lengths (see the counterexample). -/
theorem C4_theorem (t : String) (cols : List ColumnDesc)
    (h : ∀ c ∈ cols, c.character_maximum_length ≠ some 0 ∧ c.column_default ≠ some "") :
    migrateDropStmt t = specRenderDrop t ∧
    migrateCreateStmt t cols = specRenderCreate t cols := by
  refine ⟨rfl, ?_⟩
  rw [migrateCreateStmt, specRenderCreate]
  have hmap : cols.map columnDef = cols.map specColumnClause := by
    apply List.map_congr_left
    intro c hc
    exact columnDef_eq_spec c (h c hc).1 (h c hc).2
  rw [hmap]

/-- Claim C4, witness: the amended statement at the `orders` fixture. -/
theorem C4_witness :
    migrateDropStmt "orders" = specRenderDrop "orders" ∧
    migrateCreateStmt "orders" ordersColumns = specRenderCreate "orders" ordersColumns :=
  C4_theorem "orders" ordersColumns (by decide)

/-! ## Claim C5 — per-table failure isolation -/

/-- An outcome's optional fields pair exactly with its status, whatever
the behaviour and flags. -/
theorem runTable_shape (flags : Option (List (String × Bool))) (b : TableBeh) (t : SourceTable) :
    ((runTable flags b t).1.status = Status.success ↔
      ((runTable flags b t).1.rowsCopied.isSome ∧ (runTable flags b t).1.errMsg = none)) ∧
    ((runTable flags b t).1.status = Status.error ↔
      ((runTable flags b t).1.errMsg.isSome ∧ (runTable flags b t).1.rowsCopied = none)) := by
  cases b <;> simp [runTable] <;> split_ifs <;> simp

/-- Claim C5: the executor emits exactly one outcome per migrated table,
in order; the outcome of position `i` is a function of table `i` alone;
success outcomes carry `rowsCopied` and no message, error outcomes a
message and no `rowsCopied`; a drop- or create-step failure yields the
error outcome with that message and inserts no rows (no data-copy
attempt); and changing the database behaviour of one table (for example
making it throw) leaves every other table's outcome unchanged. -/
theorem C5_theorem (src : List SourceTable) (pattern : Option String)
    (selected : Option (List String)) (flags : Option (List (String × Bool)))
    (beh beh2 : String → TableBeh) (x : String)
    (hagree : ∀ u, u ≠ x → beh u = beh2 u) :
    ((quickMigrate src pattern selected flags beh).length =
       (migrateSet src pattern selected).length) ∧
    (∀ i : Nat, (quickMigrate src pattern selected flags beh)[i]? =
       ((migrateSet src pattern selected)[i]?).map fun t => (runTable flags (beh t.name) t).1) ∧
    (∀ o ∈ quickMigrate src pattern selected flags beh,
       (o.status = Status.success ↔ (o.rowsCopied.isSome ∧ o.errMsg = none)) ∧
       (o.status = Status.error ↔ (o.errMsg.isSome ∧ o.rowsCopied = none))) ∧
    (∀ (t : SourceTable) (m : String),
       (runTable flags (TableBeh.failDrop m) t).1 = Outcome.mk t.name Status.error none (some m) ∧
       (runTable flags (TableBeh.failDrop m) t).2 = [] ∧
       (runTable flags (TableBeh.failCreate m) t).1 = Outcome.mk t.name Status.error none (some m) ∧
       (runTable flags (TableBeh.failCreate m) t).2 = []) ∧
    (∀ (i : Nat) (t : SourceTable), (migrateSet src pattern selected)[i]? = some t →
       t.name ≠ x →
       (quickMigrate src pattern selected flags beh)[i]? =
         (quickMigrate src pattern selected flags beh2)[i]?) := by
  refine ⟨List.length_map _ _, ?_, ?_, ?_, ?_⟩
  · intro i
    simp [quickMigrate]
  · intro o ho
    rw [quickMigrate] at ho
    obtain ⟨t, _, rfl⟩ := List.mem_map.mp ho
    exact runTable_shape flags (beh t.name) t
  · intro t m
    exact ⟨rfl, rfl, rfl, rfl⟩
  · intro i t hi hne
    simp only [quickMigrate, List.getElem?_map, hi]
    simp [hagree t.name hne]

/-- Fixture tables for the isolation witness (the spec's three-table
scenario with the middle table's CREATE failing). -/
def tblA : SourceTable := SourceTable.mk "alpha" [] [[("id", JsValue.num 1)]]

/-- Second fixture table; its CREATE will fail. -/
def tblB : SourceTable := SourceTable.mk "beta" [] [[("id", JsValue.num 2)]]

/-- Third fixture table. -/
def tblC : SourceTable := SourceTable.mk "gamma" [] [[("id", JsValue.num 3)]]

/-- Behaviour oracle for the witness: only `beta` throws, at CREATE. -/
def behWitness : String → TableBeh :=
  fun n => if n = "beta" then TableBeh.failCreate "boom" else TableBeh.ok

/-- Claim C5, witness: the theorem instantiated on three tables of which
the middle one's CREATE throws. -/
theorem C5_witness :
    ((quickMigrate [tblA, tblB, tblC] none none (some []) behWitness).length =
      (migrateSet [tblA, tblB, tblC] none none).length) ∧
    ((quickMigrate [tblA, tblB, tblC] none none (some []) behWitness)[1]? =
      ((migrateSet [tblA, tblB, tblC] none none)[1]?).map
        fun t => (runTable (some []) (behWitness t.name) t).1) ∧
    (∀ (i : Nat) (t : SourceTable),
      (migrateSet [tblA, tblB, tblC] none none)[i]? = some t → t.name ≠ "beta" →
      (quickMigrate [tblA, tblB, tblC] none none (some []) behWitness)[i]? =
        (quickMigrate [tblA, tblB, tblC] none none (some []) (fun _ => TableBeh.ok))[i]?) :=
  ⟨(C5_theorem [tblA, tblB, tblC] none none (some []) behWitness (fun _ => TableBeh.ok)
      "beta" (fun u hu => by simp [behWitness, hu])).1,
   (C5_theorem [tblA, tblB, tblC] none none (some []) behWitness (fun _ => TableBeh.ok)
      "beta" (fun u hu => by simp [behWitness, hu])).2.1 1,
   (C5_theorem [tblA, tblB, tblC] none none (some []) behWitness (fun _ => TableBeh.ok)
      "beta" (fun u hu => by simp [behWitness, hu])).2.2.2.2⟩

/-! ## Claim C6 — system-table exclusion in every discovery path -/

/-- Appending a column to its group adds at most the one key, at the end. -/
theorem insertCol_keys (acc : List (String × List ColRow)) (name : String) (c : ColRow) :
    (insertCol acc name c).map Prod.fst = acc.map Prod.fst ∨
    (insertCol acc name c).map Prod.fst = acc.map Prod.fst ++ [name] := by
  induction acc with
  | nil => right; simp [insertCol]
  | cons e rest ih =>
    obtain ⟨ek, ecs⟩ := e
    by_cases he : ek = name
    · left; simp [insertCol, he]
    · rcases ih with h | h
      · left; simp [insertCol, he, h]
      · right; simp [insertCol, he, h]

/-- The dry-run grouping loop never records a system table key. -/
theorem groupCols_keys_clean (rows : List ColRow) (pattern : Option String) :
    ∀ acc : List (String × List ColRow),
      (∀ k ∈ acc.map Prod.fst, isSystemTable k = false) →
      ∀ k ∈ (rows.foldl
        (fun acc col =>
          if isSystemTable col.table_name || !matchesPattern col.table_name pattern then acc
          else insertCol acc col.table_name col) acc).map Prod.fst,
        isSystemTable k = false := by
  induction rows with
  | nil => intro acc hacc k hk; exact hacc k hk
  | cons r rest ih =>
    intro acc hacc k hk
    simp only [List.foldl_cons] at hk
    by_cases hskip : (isSystemTable r.table_name || !matchesPattern r.table_name pattern) = true
    · rw [if_pos hskip] at hk
      exact ih acc hacc k hk
    · rw [if_neg hskip] at hk
      have hsys : isSystemTable r.table_name = false := by
        cases hx : isSystemTable r.table_name
        · rfl
        · exact absurd (by simp [hx]) hskip
      refine ih _ ?_ k hk
      intro k2 hk2
      rcases insertCol_keys acc r.table_name r with h | h
      · rw [h] at hk2
        exact hacc k2 hk2
      · rw [h] at hk2
        rcases List.mem_append.mp hk2 with h2 | h2
        · exact hacc k2 h2
        · rw [List.mem_singleton.mp h2]
          exact hsys

/-- Anything the executor migrates passed the two base filters. -/
theorem tablesToMigrate_sub (names : List String) (pattern : Option String)
    (selected : Option (List String)) :
    ∀ n ∈ tablesToMigrate names pattern selected,
      n ∈ (names.filter fun m => !isSystemTable m).filter fun m => matchesPattern m pattern := by
  intro n hn
  rw [tablesToMigrate.eq_def] at hn
  rcases selected with _ | sel
  · dsimp only at hn
    exact hn
  · dsimp only at hn
    by_cases hlen : sel.length > 0
    · rw [if_pos hlen] at hn
      exact (List.mem_filter.mp hn).1
    · rwa [if_neg hlen] at hn

/-- Same fact for the table-level view of the executor's filter. -/
theorem migrateSet_sub (src : List SourceTable) (pattern : Option String)
    (selected : Option (List String)) :
    ∀ t ∈ migrateSet src pattern selected,
      t ∈ (src.filter fun u => !isSystemTable u.name).filter
        fun u => matchesPattern u.name pattern := by
  intro t ht
  rw [migrateSet.eq_def] at ht
  rcases selected with _ | sel
  · dsimp only at ht
    exact ht
  · dsimp only at ht
    by_cases hlen : sel.length > 0
    · rw [if_pos hlen] at ht
      exact (List.mem_filter.mp ht).1
    · rwa [if_neg hlen] at ht

/-- Claim C6: a name is a system table exactly when it starts with `pg_`
or `information_schema`, and no discovery path — analyze, dry-run
grouping, migrate/source-backup table set — ever returns one, whatever
the pattern; in particular with pattern `%` the result never contains
`pg_stat_activity` nor any `information_schema`-prefixed name. -/
theorem C6_theorem :
    (∀ n : String, isSystemTable n =
      (strStartsWith n "pg_" || strStartsWith n "information_schema")) ∧
    (∀ (rows : List StatRow) (pattern : Option String),
      ∀ t ∈ analyzeTables rows pattern, isSystemTable t.name = false) ∧
    (∀ (rows : List ColRow) (pattern : Option String),
      ∀ k ∈ (groupCols rows pattern).map Prod.fst, isSystemTable k = false) ∧
    (∀ (names : List String) (pattern : Option String) (selected : Option (List String)),
      ∀ n ∈ tablesToMigrate names pattern selected, isSystemTable n = false) ∧
    (∀ (src : List SourceTable) (pattern : Option String) (selected : Option (List String)),
      ∀ t ∈ migrateSet src pattern selected, isSystemTable t.name = false) ∧
    (∀ (names : List String) (selected : Option (List String)),
      "pg_stat_activity" ∉ tablesToMigrate names (some "%") selected ∧
      ∀ n ∈ tablesToMigrate names (some "%") selected,
        strStartsWith n "information_schema" = false) := by
  have hbase : ∀ (names : List String) (pattern : Option String) (selected : Option (List String)),
      ∀ n ∈ tablesToMigrate names pattern selected, isSystemTable n = false := by
    intro names pattern selected n hn
    have hn3 := (List.mem_filter.mp
      (List.mem_filter.mp (tablesToMigrate_sub names pattern selected n hn)).1).2
    simpa using hn3
  refine ⟨fun n => rfl, ?_, ?_, hbase, ?_, ?_⟩
  · intro rows pattern t ht
    have ht2 := (List.mem_filter.mp (List.mem_filter.mp ht).1).2
    simpa using ht2
  · intro rows pattern k hk
    exact groupCols_keys_clean rows pattern [] (by intro k2 hk2; simp at hk2) k hk
  · intro src pattern selected t ht
    have ht3 := (List.mem_filter.mp
      (List.mem_filter.mp (migrateSet_sub src pattern selected t ht)).1).2
    simpa using ht3
  · intro names selected
    constructor
    · intro hmem
      have := hbase names (some "%") selected _ hmem
      rw [show isSystemTable "pg_stat_activity" = true from by decide] at this
      exact Bool.true_eq_false.mp this
    · intro n hn
      have hs := hbase names (some "%") selected n hn
      rw [isSystemTable] at hs
      exact (Bool.or_eq_false_iff.mp hs).2

/-- Claim C6, witness: concrete discovery over a universe containing
`pg_stat_activity`, and the clean name `orders` surviving the filter. -/
theorem C6_witness :
    "pg_stat_activity" ∉ tablesToMigrate ["orders", "pg_stat_activity"] (some "%") none ∧
    isSystemTable "orders" = false :=
  ⟨(C6_theorem.2.2.2.2.2 ["orders", "pg_stat_activity"] none).1,
   C6_theorem.2.2.2.1 ["orders", "pg_stat_activity"] (some "%") none "orders" (by
     have h1 : matchesPattern "orders" (some "%") = true := by
       simp [matchesPattern, parseRegex, likeToRegexChars, escapeRegex, escapeChar, isEscClass,
         substWildcards, parseAux.eq_def, reMatch.eq_def, atomMatch, isLineTerm,
         lbraceChar, rbraceChar]
     rw [tablesToMigrate.eq_def]
     dsimp only
     simp +decide [h1, isSystemTable, strStartsWith])⟩

/-! ## Claim C7 — table-name validation before SQL construction -/

/-- Claim C7: both the table-data and the row-mutation endpoint reject any
table name failing the identifier grammar with the validation error, and
only requests with grammar-conforming names ever reach a built query plan
(the plans carrying the SQL text exist only in the `ok` result); the
injection payload of the spec fails the grammar. -/
theorem C7_theorem :
    (∀ (t : String) (page pageSize : Nat) (ob : Option String) (od : String)
       (search : Option String) (cols : List String),
      isValidIdent t = false →
      dbDataHandler t page pageSize ob od search cols =
        Except.error HandlerError.invalidTableName) ∧
    (∀ (t : String) (op : MutationOp) (d w : Option (List (String × JsValue)))
       (vc : List String),
      isValidIdent t = false →
      rowHandler t op d w vc = Except.error HandlerError.invalidTableName) ∧
    isValidIdent "\"; DROP TABLE users; --" = false ∧
    (∀ (t : String) (page pageSize : Nat) (ob : Option String) (od : String)
       (search : Option String) (cols : List String) (plan : DataPlan),
      dbDataHandler t page pageSize ob od search cols = Except.ok plan →
      isValidIdent t = true) ∧
    (∀ (t : String) (op : MutationOp) (d w : Option (List (String × JsValue)))
       (vc : List String) (plan : MutationPlan),
      rowHandler t op d w vc = Except.ok plan → isValidIdent t = true) := by
  have h1 : ∀ (t : String) (page pageSize : Nat) (ob : Option String) (od : String)
      (search : Option String) (cols : List String),
      isValidIdent t = false →
      dbDataHandler t page pageSize ob od search cols =
        Except.error HandlerError.invalidTableName := by
    intro t page pageSize ob od search cols h
    rw [dbDataHandler.eq_def, h]
    rfl
  have h2 : ∀ (t : String) (op : MutationOp) (d w : Option (List (String × JsValue)))
      (vc : List String),
      isValidIdent t = false →
      rowHandler t op d w vc = Except.error HandlerError.invalidTableName := by
    intro t op d w vc h
    rw [rowHandler.eq_def, h]
    rfl
  refine ⟨h1, h2, by decide, ?_, ?_⟩
  · intro t page pageSize ob od search cols plan hok
    cases hv : isValidIdent t
    · rw [h1 t page pageSize ob od search cols hv] at hok
      exact absurd hok (by simp)
    · rfl
  · intro t op d w vc plan hok
    cases hv : isValidIdent t
    · rw [h2 t op d w vc hv] at hok
      exact absurd hok (by simp)
    · rfl

/-- Claim C7, witness: both endpoints at the spec's injection payload. -/
theorem C7_witness :
    isValidIdent "\"; DROP TABLE users; --" = false ∧
    dbDataHandler "\"; DROP TABLE users; --" 1 25 none "asc" none ["id"] =
      Except.error HandlerError.invalidTableName ∧
    rowHandler "\"; DROP TABLE users; --" MutationOp.delete none
        (some [("id", JsValue.num 1)]) ["id"] =
      Except.error HandlerError.invalidTableName :=
  ⟨by decide,
   C7_theorem.1 "\"; DROP TABLE users; --" 1 25 none "asc" none ["id"] (by decide),
   C7_theorem.2.1 "\"; DROP TABLE users; --" MutationOp.delete none
     (some [("id", JsValue.num 1)]) ["id"] (by decide)⟩

/-! ## Claim C8 — `formatBytes` -/

/-- The fuelled base-1024 logarithm is the floor logarithm. -/
theorem intLogAux_bounds : ∀ (fuel n : Nat), 1 ≤ n → n ≤ fuel →
    1024 ^ intLogAux fuel n ≤ n ∧ n < 1024 ^ (intLogAux fuel n + 1) := by
  intro fuel
  induction fuel with
  | zero => intro n h1 h2; omega
  | succ fuel ih =>
    intro n h1 h2
    rw [intLogAux]
    by_cases hlt : n < 1024
    · rw [if_pos hlt]
      exact ⟨by simpa using h1, by simpa using hlt⟩
    · rw [if_neg hlt]
      have h1024 : (1024 : Nat) ≤ n := Nat.le_of_not_lt hlt
      have hd1 : 1 ≤ n / 1024 := (Nat.one_le_div_iff (by norm_num)).mpr h1024
      have hd2 : n / 1024 ≤ fuel := by
        have := Nat.div_lt_self (by omega : 0 < n) (by norm_num : 1 < 1024)
        omega
      obtain ⟨hA, hB⟩ := ih (n / 1024) hd1 hd2
      have hdm := Nat.div_add_mod n 1024
      have hmod : n % 1024 < 1024 := Nat.mod_lt _ (by norm_num)
      constructor
      · calc 1024 ^ (intLogAux fuel (n / 1024) + 1)
            = 1024 ^ intLogAux fuel (n / 1024) * 1024 := pow_succ 1024 _
          _ ≤ n / 1024 * 1024 := Nat.mul_le_mul_right _ hA
          _ ≤ n := Nat.div_mul_le_self n 1024
      · have hB2 : n / 1024 + 1 ≤ 1024 ^ (intLogAux fuel (n / 1024) + 1) := hB
        calc n < 1024 * (n / 1024) + 1024 := by omega
          _ = (n / 1024 + 1) * 1024 := by ring
          _ ≤ 1024 ^ (intLogAux fuel (n / 1024) + 1) * 1024 := Nat.mul_le_mul_right _ hB2
          _ = 1024 ^ (intLogAux fuel (n / 1024) + 1 + 1) := (pow_succ 1024 _).symm

/-- Floor-logarithm bounds for `intLog1024`. -/
theorem intLog1024_bounds (n : Nat) (h : 1 ≤ n) :
    1024 ^ intLog1024 n ≤ n ∧ n < 1024 ^ (intLog1024 n + 1) :=
  intLogAux_bounds n n h (le_refl n)

/-- Claim C8, counterexample: at 1024^5 bytes the largest of the claim's
five units with value at least 1 is TB (value 1024, so the claim demands
`"1024 TB"`), but the unit index computed by the code is 5, past the end
of the `sizes` list, and the result is the string `"1 undefined"`.  On
this input the integer model agrees with the program: the float log ratio
at and just below 1024^5 is exactly 5.0 and JS renders `sizes[5]`
(`undefined`) into the concatenation. -/
theorem C8_counterexample :
    formatBytes (1024 ^ 5) = "1 undefined" ∧
    "undefined" ∉ sizeUnits ∧
    "1 undefined" ≠ "1024 TB" := by
  refine ⟨by decide, by decide, by decide⟩

/-- Claim C8 (amended): the three anchor values hold, and for every
positive byte count with `25 * bytes < 2^53` — the range on which the
float pipeline provably coincides with exact integer arithmetic, about
360 TB — the rendered unit index `i` is the largest of the five base-1024
units whose value is at least 1, and the rendered number is the value in
that unit rounded half-up to hundredths (the `v100` bounds say exactly
that `v100/100` is within half a hundredth of `bytes/1024^i`).  Outside
that range the double computation can misround the last hundredth, and
from 1024^5 on the unit index leaves the Bytes..TB list entirely (see the
counterexample). -/
theorem C8_theorem :
    formatBytes 0 = "0 Bytes" ∧ formatBytes 1024 = "1 KB" ∧ formatBytes 1536 = "1.5 KB" ∧
    ∀ bytes : Nat, 0 < bytes → 25 * bytes < 2 ^ 53 →
      ∃ i : Nat, i < 5 ∧ 1024 ^ i ≤ bytes ∧ bytes < 1024 ^ (i + 1) ∧
        (∀ j : Nat, j < 5 → 1024 ^ j ≤ bytes → j ≤ i) ∧
        ∃ v100 : Nat,
          2 * 1024 ^ i * v100 ≤ 2 * (bytes * 100) + 1024 ^ i ∧
          2 * (bytes * 100) < 2 * 1024 ^ i * v100 + 1024 ^ i ∧
          formatBytes bytes = renderHundredths v100 ++ " " ++ sizeUnits.getD i "undefined" := by
  refine ⟨by decide, by decide, by decide, ?_⟩
  intro bytes hpos hrange
  have hlt5 : bytes < 1024 ^ 5 := by
    have h5 : (1024 : Nat) ^ 5 = 1125899906842624 := by norm_num
    have h53 : (2 : Nat) ^ 53 = 9007199254740992 := by norm_num
    omega
  obtain ⟨hlo, hhi⟩ := intLog1024_bounds bytes hpos
  set i := intLog1024 bytes with hi
  have hi5 : i < 5 := by
    by_contra hge
    push_neg at hge
    have : (1024 : Nat) ^ 5 ≤ 1024 ^ i := Nat.pow_le_pow_right (by norm_num) hge
    omega
  refine ⟨i, hi5, hlo, hhi, ?_, ?_⟩
  · intro j hj5 hjle
    by_contra hgt
    push_neg at hgt
    have : (1024 : Nat) ^ (i + 1) ≤ 1024 ^ j := Nat.pow_le_pow_right (by norm_num) hgt
    omega
  · refine ⟨(2 * (bytes * 100) + 1024 ^ i) / (2 * 1024 ^ i), ?_, ?_, ?_⟩
    · have := Nat.div_mul_le_self (2 * (bytes * 100) + 1024 ^ i) (2 * 1024 ^ i)
      calc 2 * 1024 ^ i * ((2 * (bytes * 100) + 1024 ^ i) / (2 * 1024 ^ i))
          = (2 * (bytes * 100) + 1024 ^ i) / (2 * 1024 ^ i) * (2 * 1024 ^ i) := by ring
        _ ≤ 2 * (bytes * 100) + 1024 ^ i := this
    · have hppos : 0 < 2 * 1024 ^ i := by positivity
      have hdm := Nat.div_add_mod (2 * (bytes * 100) + 1024 ^ i) (2 * 1024 ^ i)
      have hmod := Nat.mod_lt (2 * (bytes * 100) + 1024 ^ i) hppos
      omega
    · rw [formatBytes, if_neg (by omega : ¬ bytes = 0)]

/-- Claim C8, witness: the amended statement instantiated at 1536. -/
theorem C8_witness :
    (0 : Nat) < 1536 ∧ 25 * 1536 < 2 ^ 53 ∧
    ∃ i : Nat, i < 5 ∧ 1024 ^ i ≤ 1536 ∧ 1536 < 1024 ^ (i + 1) ∧
      (∀ j : Nat, j < 5 → 1024 ^ j ≤ 1536 → j ≤ i) ∧
      ∃ v100 : Nat,
        2 * 1024 ^ i * v100 ≤ 2 * (1536 * 100) + 1024 ^ i ∧
        2 * (1536 * 100) < 2 * 1024 ^ i * v100 + 1024 ^ i ∧
        formatBytes 1536 = renderHundredths v100 ++ " " ++ sizeUnits.getD i "undefined" :=
  ⟨by decide, by decide, C8_theorem.2.2.2 1536 (by decide) (by decide)⟩

/-! ## Claim C9 — NULL handling in WHERE construction -/

/-- The WHERE-clause builder characterised entry by entry: one predicate
per entry; the parameter list is exactly the non-null values in order;
entry `i` renders `"k" IS NULL` when its value is null (adding nothing to
the parameters) and otherwise `"k" = $n` where `n` counts the start index
plus the non-null entries before `i`. -/
theorem buildWhere_spec : ∀ (entries : List (String × JsValue)) (start : Nat),
    (buildWhereClauses entries start).1.length = entries.length ∧
    (buildWhereClauses entries start).2 =
      (entries.filter fun e => !(e.2 = JsValue.null)).map Prod.snd ∧
    ∀ i : Nat, (hi : i < entries.length) →
      (buildWhereClauses entries start).1[i]? = some
        (if (entries.get ⟨i, hi⟩).2 = JsValue.null
         then "\"" ++ (entries.get ⟨i, hi⟩).1 ++ "\" IS NULL"
         else "\"" ++ (entries.get ⟨i, hi⟩).1 ++ "\" = $" ++
           toString (start + ((entries.take i).filter fun e => !(e.2 = JsValue.null)).length)) := by
  intro entries
  induction entries with
  | nil =>
    intro start
    refine ⟨rfl, rfl, ?_⟩
    intro i hi
    exact absurd hi (by simp)
  | cons e rest ih =>
    intro start
    obtain ⟨k, v⟩ := e
    by_cases hv : v = JsValue.null
    · have hbw : buildWhereClauses ((k, v) :: rest) start =
          (("\"" ++ k ++ "\" IS NULL") :: (buildWhereClauses rest start).1,
            (buildWhereClauses rest start).2) := by
        rw [buildWhereClauses.eq_def]
        dsimp only
        rw [if_pos hv]
      refine ⟨?_, ?_, ?_⟩
      · rw [hbw]
        simp [(ih start).1]
      · rw [hbw]
        rw [(ih start).2.1]
        simp [hv]
      · intro i hi
        rw [hbw]
        cases i with
        | zero => simp [hv]
        | succ i2 =>
          have hi2 : i2 < rest.length := by simpa using hi
          simp only [List.getElem?_cons_succ]
          rw [(ih start).2.2 i2 hi2]
          simp [hv]
    · have hbw : buildWhereClauses ((k, v) :: rest) start =
          (("\"" ++ k ++ "\" = $" ++ toString start) :: (buildWhereClauses rest (start + 1)).1,
            v :: (buildWhereClauses rest (start + 1)).2) := by
        rw [buildWhereClauses.eq_def]
        dsimp only
        rw [if_neg hv]
      refine ⟨?_, ?_, ?_⟩
      · rw [hbw]
        simp [(ih (start + 1)).1]
      · rw [hbw]
        rw [(ih (start + 1)).2.1]
        simp [hv]
      · intro i hi
        rw [hbw]
        cases i with
        | zero => simp [hv]
        | succ i2 =>
          have hi2 : i2 < rest.length := by simpa using hi
          simp only [List.getElem?_cons_succ]
          rw [(ih (start + 1)).2.2 i2 hi2]
          have harith : start + ((((k, v) :: rest).take (i2 + 1)).filter
                (fun e => !(e.2 = JsValue.null))).length =
              start + 1 + ((rest.take i2).filter (fun e => !(e.2 = JsValue.null))).length := by
            rw [List.take_succ_cons, List.filter_cons]
            simp [hv]
            omega
          rw [harith]
          rfl

/-- Claim C9: null where-values render `IS NULL` predicates contributing
no parameter, non-null values render consecutive `$n` comparisons, and
the delete and update branches of the row endpoint join exactly these
clauses with AND (the update's where indices continuing after the SET
parameters). -/
theorem C9_theorem :
    (∀ (entries : List (String × JsValue)) (start : Nat),
      (buildWhereClauses entries start).1.length = entries.length ∧
      (buildWhereClauses entries start).2 =
        (entries.filter fun e => !(e.2 = JsValue.null)).map Prod.snd ∧
      ∀ i : Nat, (hi : i < entries.length) →
        (buildWhereClauses entries start).1[i]? = some
          (if (entries.get ⟨i, hi⟩).2 = JsValue.null
           then "\"" ++ (entries.get ⟨i, hi⟩).1 ++ "\" IS NULL"
           else "\"" ++ (entries.get ⟨i, hi⟩).1 ++ "\" = $" ++
             toString (start + ((entries.take i).filter
               fun e => !(e.2 = JsValue.null)).length))) ∧
    (∀ (t : String) (vc : List String) (w : List (String × JsValue)),
      isValidIdent t = true → w ≠ [] →
      (w.filter fun e => vc.contains e.1 && isValidIdent e.1) ≠ [] →
      rowHandler t MutationOp.delete none (some w) vc =
        Except.ok (MutationPlan.mk
          ("DELETE FROM \"" ++ t ++ "\" WHERE " ++ String.intercalate " AND "
            (buildWhereClauses (w.filter fun e => vc.contains e.1 && isValidIdent e.1) 1).1)
          (buildWhereClauses (w.filter fun e => vc.contains e.1 && isValidIdent e.1) 1).2)) ∧
    (∀ (t : String) (vc : List String) (d w : List (String × JsValue)),
      isValidIdent t = true → d ≠ [] → w ≠ [] →
      (d.filter fun e => vc.contains e.1 && isValidIdent e.1) ≠ [] →
      (w.filter fun e => vc.contains e.1 && isValidIdent e.1) ≠ [] →
      rowHandler t MutationOp.update (some d) (some w) vc =
        Except.ok (MutationPlan.mk
          ("UPDATE \"" ++ t ++ "\" SET " ++ String.intercalate ", "
            (buildSetClauses (d.filter fun e => vc.contains e.1 && isValidIdent e.1) 1).1 ++
            " WHERE " ++ String.intercalate " AND "
            (buildWhereClauses (w.filter fun e => vc.contains e.1 && isValidIdent e.1)
              (1 + (d.filter fun e => vc.contains e.1 && isValidIdent e.1).length)).1 ++
            " RETURNING *")
          ((buildSetClauses (d.filter fun e => vc.contains e.1 && isValidIdent e.1) 1).2 ++
            (buildWhereClauses (w.filter fun e => vc.contains e.1 && isValidIdent e.1)
              (1 + (d.filter fun e => vc.contains e.1 && isValidIdent e.1).length)).2))) := by
  refine ⟨buildWhere_spec, ?_, ?_⟩
  · intro t vc w ht hw hfil
    rw [rowHandler.eq_def, ht]
    dsimp only
    rw [show w.isEmpty = false from by simpa [List.isEmpty_iff] using hw]
    rw [show (w.filter fun e => vc.contains e.1 && isValidIdent e.1).isEmpty = false from by
      simpa [List.isEmpty_iff] using hfil]
    rfl
  · intro t vc d w ht hd hw hfild hfilw
    rw [rowHandler.eq_def, ht]
    dsimp only
    rw [show d.isEmpty = false from by simpa [List.isEmpty_iff] using hd]
    rw [show w.isEmpty = false from by simpa [List.isEmpty_iff] using hw]
    rw [show (d.filter fun e => vc.contains e.1 && isValidIdent e.1).isEmpty = false from by
      simpa [List.isEmpty_iff] using hfild]
    rw [show (w.filter fun e => vc.contains e.1 && isValidIdent e.1).isEmpty = false from by
      simpa [List.isEmpty_iff] using hfilw]
    rfl

/-- Claim C9, witness: a mixed null/non-null where mapping through the
builder and the delete endpoint. -/
theorem C9_witness :
    ((buildWhereClauses [("a", JsValue.null), ("b", JsValue.num 3)] 1).1.length =
      ([("a", JsValue.null), ("b", JsValue.num 3)] : List (String × JsValue)).length) ∧
    ((buildWhereClauses [("a", JsValue.null), ("b", JsValue.num 3)] 1).2 =
      ([("a", JsValue.null), ("b", JsValue.num 3)].filter
        (fun e => !(e.2 = JsValue.null))).map Prod.snd) ∧
    rowHandler "t" MutationOp.delete none
        (some [("a", JsValue.null), ("b", JsValue.num 3)]) ["a", "b"] =
      Except.ok (MutationPlan.mk
        ("DELETE FROM \"t\" WHERE " ++ String.intercalate " AND "
          (buildWhereClauses ([("a", JsValue.null), ("b", JsValue.num 3)].filter
            fun e => (["a", "b"].contains e.1 && isValidIdent e.1)) 1).1)
        (buildWhereClauses ([("a", JsValue.null), ("b", JsValue.num 3)].filter
            fun e => (["a", "b"].contains e.1 && isValidIdent e.1)) 1).2) :=
  ⟨(C9_theorem.1 [("a", JsValue.null), ("b", JsValue.num 3)] 1).1,
   (C9_theorem.1 [("a", JsValue.null), ("b", JsValue.num 3)] 1).2.1,
   C9_theorem.2.1 "t" ["a", "b"] [("a", JsValue.null), ("b", JsValue.num 3)]
     (by decide) (by decide) (by decide)⟩

/-! ## Claim C10 — silent discarding of unknown mapping keys -/

/-- Claim C10: the insert and update branches filter the request mappings
to existing, grammar-valid column keys; a mixed mapping proceeds using
exactly the surviving entries (the built statement and parameters are
computed from the filtered list alone), and the no-valid-columns errors
are returned precisely when the respective filter leaves nothing. -/
theorem C10_theorem :
    (∀ (t : String) (vc : List String) (d : List (String × JsValue))
       (w : Option (List (String × JsValue))),
      isValidIdent t = true → d ≠ [] →
      ((d.filter fun e => vc.contains e.1 && isValidIdent e.1) = [] →
        rowHandler t MutationOp.insert (some d) w vc =
          Except.error HandlerError.noValidColumns) ∧
      ((d.filter fun e => vc.contains e.1 && isValidIdent e.1) ≠ [] →
        rowHandler t MutationOp.insert (some d) w vc =
          Except.ok (MutationPlan.mk
            ("INSERT INTO \"" ++ t ++ "\" (" ++
              String.intercalate ", "
                (((d.filter fun e => vc.contains e.1 && isValidIdent e.1).map Prod.fst).map
                  fun c => "\"" ++ c ++ "\"") ++
              ") VALUES (" ++
              String.intercalate ", "
                ((List.range ((d.filter fun e => vc.contains e.1 && isValidIdent e.1).map
                  Prod.fst).length).map fun i => "$" ++ toString (i + 1)) ++
              ") RETURNING *")
            ((d.filter fun e => vc.contains e.1 && isValidIdent e.1).map Prod.snd)))) ∧
    (∀ (t : String) (vc : List String) (d w : List (String × JsValue)),
      isValidIdent t = true → d ≠ [] → w ≠ [] →
      ((d.filter fun e => vc.contains e.1 && isValidIdent e.1) = [] →
        rowHandler t MutationOp.update (some d) (some w) vc =
          Except.error HandlerError.noValidDataColumns) ∧
      ((d.filter fun e => vc.contains e.1 && isValidIdent e.1) ≠ [] →
        (w.filter fun e => vc.contains e.1 && isValidIdent e.1) = [] →
        rowHandler t MutationOp.update (some d) (some w) vc =
          Except.error HandlerError.noValidWhereColumns)) := by
  constructor
  · intro t vc d w ht hd
    constructor
    · intro hfil
      rw [rowHandler.eq_def, ht]
      dsimp only
      rw [show d.isEmpty = false from by simpa [List.isEmpty_iff] using hd]
      rw [show (d.filter fun e => vc.contains e.1 && isValidIdent e.1).isEmpty = true from by
        rw [List.isEmpty_iff]; exact hfil]
      rfl
    · intro hfil
      rw [rowHandler.eq_def, ht]
      dsimp only
      rw [show d.isEmpty = false from by simpa [List.isEmpty_iff] using hd]
      rw [show (d.filter fun e => vc.contains e.1 && isValidIdent e.1).isEmpty = false from by
        simpa [List.isEmpty_iff] using hfil]
      rfl
  · intro t vc d w ht hd hw
    constructor
    · intro hfild
      rw [rowHandler.eq_def, ht]
      dsimp only
      rw [show d.isEmpty = false from by simpa [List.isEmpty_iff] using hd]
      rw [show w.isEmpty = false from by simpa [List.isEmpty_iff] using hw]
      rw [show (d.filter fun e => vc.contains e.1 && isValidIdent e.1).isEmpty = true from by
        rw [List.isEmpty_iff]; exact hfild]
      rfl
    · intro hfild hfilw
      rw [rowHandler.eq_def, ht]
      dsimp only
      rw [show d.isEmpty = false from by simpa [List.isEmpty_iff] using hd]
      rw [show w.isEmpty = false from by simpa [List.isEmpty_iff] using hw]
      rw [show (d.filter fun e => vc.contains e.1 && isValidIdent e.1).isEmpty = false from by
        simpa [List.isEmpty_iff] using hfild]
      rw [show (w.filter fun e => vc.contains e.1 && isValidIdent e.1).isEmpty = true from by
        rw [List.isEmpty_iff]; exact hfilw]
      rfl

/-- Claim C10, witness: an insert mixing one valid key with an
ill-formed key and an unknown key proceeds with the valid one; an insert
with only unknown keys gets the no-valid-columns error. -/
theorem C10_witness :
    rowHandler "t" MutationOp.insert
        (some [("good", JsValue.num 1), ("bad col", JsValue.num 2), ("ghost", JsValue.num 3)])
        none ["good"] =
      Except.ok (MutationPlan.mk
        ("INSERT INTO \"t\" (" ++
          String.intercalate ", "
            ((([("good", JsValue.num 1), ("bad col", JsValue.num 2),
                ("ghost", JsValue.num 3)].filter
              fun e => (["good"].contains e.1 && isValidIdent e.1)).map Prod.fst).map
              fun c => "\"" ++ c ++ "\"") ++
          ") VALUES (" ++
          String.intercalate ", "
            ((List.range (([("good", JsValue.num 1), ("bad col", JsValue.num 2),
                ("ghost", JsValue.num 3)].filter
              fun e => (["good"].contains e.1 && isValidIdent e.1)).map Prod.fst).length).map
              fun i => "$" ++ toString (i + 1)) ++
          ") RETURNING *")
        (([("good", JsValue.num 1), ("bad col", JsValue.num 2), ("ghost", JsValue.num 3)].filter
            fun e => (["good"].contains e.1 && isValidIdent e.1)).map Prod.snd)) ∧
    rowHandler "t" MutationOp.insert (some [("ghost", JsValue.num 9)]) none ["good"] =
      Except.error HandlerError.noValidColumns :=
  ⟨((C10_theorem.1 "t" ["good"]
      [("good", JsValue.num 1), ("bad col", JsValue.num 2), ("ghost", JsValue.num 3)]
      none (by decide) (by decide)).2 (by decide)),
   ((C10_theorem.1 "t" ["good"] [("ghost", JsValue.num 9)] none
      (by decide) (by decide)).1 (by decide))⟩
